import Mathlib

/-!
# Verification of the AdoptiPet pagination and recommendation core

Shallow embedding of the two algorithmic pieces of the pet-adoption backend:

* `paginateCollection` — the offset-based pagination helper
  (source: `utils/pagination__collection.js`);
* `getPetRecommendations` / `getAdvancedPetRecommendations` — the
  recommendation handlers built on MongoDB aggregation pipelines.

The MongoDB collection is modelled as a Lean `List` of documents together
with a Boolean filter; `countDocuments`, `find.skip.limit` and the
aggregation stages are given list semantics.  JavaScript
`Number.parseInt(q) || default` on a query-string parameter is modelled by
taking the parse result as an `Option Int` input (`none` = the parameter is
missing or does not parse to an integer, i.e. `parseInt` returned `NaN`).
-/

namespace AdoptiPet

/-! ## Pagination (`utils/pagination__collection.js`)

```js
const pageSize = Number.parseInt(req.query.limit) || 6;
const cursor = Number.parseInt(req.query.cursor) || 0;
const total = await collection.countDocuments(filter);
const adjustedCursor = cursor >= total ? Math.max(total - pageSize, 0) : cursor;
const items = await collection.find(filter, { projection }).skip(adjustedCursor).limit(pageSize).toArray();
const nextId = adjustedCursor + pageSize < total ? adjustedCursor + pageSize : null;
const previousId = adjustedCursor - pageSize >= 0 ? adjustedCursor - pageSize : null;
return { items, nextId, previousId, total };
```
-/

/-- JS `Number.parseInt(req.query.limit) || 6`: a missing/non-parsing limit
(`parseInt` = `NaN`, modelled `none`) or a parse result of `0` (falsy in JS)
falls back to `6`; any other integer, including a negative one, is kept. -/
def effectivePageSize : Option Int → Int
  | none => 6
  | some n => if n = 0 then 6 else n

/-- JS `Number.parseInt(req.query.cursor) || 0`: a missing/non-parsing cursor
falls back to `0` (a parsed `0` is falsy in JS but `0 || 0` is `0` anyway). -/
def parsedCursor : Option Int → Int
  | none => 0
  | some n => n

/-- The call `collection.countDocuments(filter)` over the list model. -/
def countDocuments {α : Type} (coll : List α) (filter : α → Bool) : Nat :=
  (coll.filter filter).length

/-- Line 11 of the helper:
`cursor >= total ? Math.max(total - pageSize, 0) : cursor`. -/
def adjustedCursor (total pageSize cursor : Int) : Int :=
  if cursor ≥ total then max (total - pageSize) 0 else cursor

/-- Modelled from the spec: the abstract collection capability of §6,
`find(filter).skip(n).limit(n)`, over the list model.  The store rejects a
negative skip (spec §9 leaves negative-skip behaviour to the store; the
MongoDB store used here raises an error for it — this is the only failure
the paginator can propagate).  A negative limit caps the result at its
absolute value; the paginator never passes `limit = 0` since the page size
defaults to 6 whenever the parsed limit is falsy. -/
def findSkipLimit {α : Type} (coll : List α) (filter : α → Bool)
    (skip lim : Int) : Except String (List α) :=
  if skip < 0 then Except.error "skip must be non-negative"
  else Except.ok (((coll.filter filter).drop skip.toNat).take lim.natAbs)

/-- The `{ items, nextId, previousId, total }` object returned by the
pagination helper. -/
structure Page (α : Type) where
  items : List α
  nextId : Option Int
  previousId : Option Int
  total : Nat
deriving Repr, DecidableEq

/-- The effective (adjusted) cursor the helper computes on line 11 from the
request parameters and the filtered document count. -/
def effCursorOf {α : Type} (coll : List α) (filter : α → Bool)
    (limitQ cursorQ : Option Int) : Int :=
  adjustedCursor (countDocuments coll filter) (effectivePageSize limitQ)
    (parsedCursor cursorQ)

/-- The pagination helper `paginateCollection` with the collection and the
parsed query parameters as explicit inputs. -/
def paginateCollection {α : Type} (coll : List α) (filter : α → Bool)
    (limitQ cursorQ : Option Int) : Except String (Page α) :=
  let pageSize := effectivePageSize limitQ
  let total := countDocuments coll filter
  let adjusted := effCursorOf coll filter limitQ cursorQ
  match findSkipLimit coll filter adjusted pageSize with
  | Except.error e => Except.error e
  | Except.ok items =>
      Except.ok
        { items := items
          nextId :=
            if adjusted + pageSize < (total : Int) then some (adjusted + pageSize)
            else none
          previousId :=
            if adjusted - pageSize ≥ 0 then some (adjusted - pageSize)
            else none
          total := total }

/-! ## Recommendation handlers (`routes/recommendations`)

The two handlers `getPetRecommendations` and `getAdvancedPetRecommendations`
run MongoDB aggregation pipelines over the `pets` collection with a
`$lookup` into `users`.  Documents are opaque mappings; the fields the
pipelines inspect are modelled as structure fields, with `Option` encoding
key presence, and an `other` field standing for the rest of the payload.
Timestamps (`created_at`, `new Date()`) are epoch milliseconds (`Int`);
MongoDB `$divide` is real division, modelled over `ℚ`. -/

/-- A document of the `users` collection.  `password`/`email` are `Option`
so that the `$project` exclusions can be expressed as key removal. -/
structure UserDoc where
  uid : Nat
  password : Option String
  email : Option String
  other : String
deriving Repr, DecidableEq

/-- A document of the `pets` collection.  `location` is optional (some
listings never recorded one); `added_by` holds the listing user's id. -/
structure PetDoc where
  category : String
  location : Option String
  adopted : Bool
  created_at : Int
  added_by : Option Nat
  other : String
deriving Repr, DecidableEq

/-- A pet document after `$lookup` + `$unwind` (with
`preserveNullAndEmptyArrays: true`): `added_by` is now the joined user
document, absent when the reference was absent or matched no user. -/
structure JoinedDoc where
  category : String
  location : Option String
  adopted : Bool
  created_at : Int
  added_by : Option UserDoc
  other : String
deriving Repr, DecidableEq

/-- A joined document after the two `$addFields` stages of the advanced
pipeline: `locationScore`, `freshnessScore`, `totalScore` present. -/
structure ScoredDoc where
  category : String
  location : Option String
  adopted : Bool
  created_at : Int
  added_by : Option UserDoc
  locationScore : ℚ
  freshnessScore : ℚ
  totalScore : ℚ
  other : String
deriving Repr, DecidableEq

/-- A document as returned to the client: the transient score fields are
optional so the final `$project`-exclusion can be expressed as absence. -/
structure OutDoc where
  category : String
  location : Option String
  adopted : Bool
  created_at : Int
  added_by : Option UserDoc
  locationScore : Option ℚ
  freshnessScore : Option ℚ
  totalScore : Option ℚ
  other : String
deriving Repr, DecidableEq

/-- JS `Array.isArray(categories) ? categories : [categories]`: the
`categories` query parameter is either a single string or an array. -/
inductive Categories where
  | single (s : String)
  | arr (l : List String)
deriving Repr, DecidableEq

/-- The wrapped category array (`categoryArray` in both handlers). -/
def categoryArray : Categories → List String
  | Categories.single s => [s]
  | Categories.arr l => l

/-- Whether `pat` occurs in `s` as a contiguous character run. -/
def charsContain (s pat : List Char) : Bool :=
  match s with
  | [] => pat.isEmpty
  | _ :: rest => startsWithChars s pat || charsContain rest pat
where
  /-- Whether `pat` is a leading run of `s`. -/
  startsWithChars : List Char → List Char → Bool
  | _, [] => true
  | [], _ :: _ => false
  | c :: cs, p :: ps => c == p && startsWithChars cs ps

/-- Modelled from the spec: `{ $regex: district, $options: "i" }` — the
locality hint is matched as a case-insensitive substring of `s` (the hint
is used as a regular-expression pattern; the spec reads it as substring
matching). -/
def ciContains (s pat : String) : Bool :=
  charsContain (s.toList.map Char.toLower) (pat.toList.map Char.toLower)

/-- Location regex test lifted to the optional `location` field: a missing
field matches nothing. -/
def locMatches (district : String) : Option String → Bool
  | some l => ciContains l district
  | none => false

/-- The `$match`/query of the basic handler: category membership,
case-insensitive location match (a document with no `location` key does not
match the `$regex` condition) and `adopted: false`. -/
def basicMatch (cats : Categories) (district : String) (d : PetDoc) : Bool :=
  (categoryArray cats).contains d.category
    && locMatches district d.location
    && d.adopted == false

/-- The `$match` of the advanced pipeline: category membership,
`adopted: false`, and `$or` of the location regex with
`location: { $exists: false }`. -/
def advMatch (cats : Categories) (district : String) (d : PetDoc) : Bool :=
  (categoryArray cats).contains d.category
    && d.adopted == false
    && (locMatches district d.location || d.location == none)

/-- Stage `$lookup` (from `users`, local field `added_by`, foreign field
the user id) followed by `$unwind` with `preserveNullAndEmptyArrays: true`.  User ids
are unique, so the lookup joins at most one user. -/
def lookupUser (users : List UserDoc) (ref : Option Nat) : Option UserDoc :=
  ref.bind (fun r => users.find? (fun u => u.uid == r))

/-- The `$lookup` + `$unwind` stage applied to one matched pet. -/
def joinUsers (users : List UserDoc) (d : PetDoc) : JoinedDoc :=
  { category := d.category
    location := d.location
    adopted := d.adopted
    created_at := d.created_at
    added_by := lookupUser users d.added_by
    other := d.other }

/-- Stage `$project` removing `added_by.password` and `added_by.email` on
the embedded user document. -/
def stripUser (u : UserDoc) : UserDoc :=
  { u with password := none, email := none }

/-- The basic handler's `$project` stage: the embedded user loses its
`password` and `email` keys; no score field was ever added. -/
def basicProject (d : JoinedDoc) : OutDoc :=
  { category := d.category
    location := d.location
    adopted := d.adopted
    created_at := d.created_at
    added_by := d.added_by.map stripUser
    locationScore := none
    freshnessScore := none
    totalScore := none
    other := d.other }

/-- The two `$addFields` stages of the advanced pipeline.  Modelled from the
spec: `$regexMatch` on the optional `location` input scores 10 on a
case-insensitive match and 5 otherwise ("No location or different location
gets 5 points"); `freshnessScore` is `10 - (now - created_at) / 86400000`
with real division and no lower clamp; `totalScore` is their sum. -/
def scoreDoc (district : String) (now : Int) (d : JoinedDoc) : ScoredDoc :=
  let ls : ℚ := if locMatches district d.location then 10 else 5
  let fs : ℚ := 10 - ((now - d.created_at : Int) : ℚ) / 86400000
  { category := d.category
    location := d.location
    adopted := d.adopted
    created_at := d.created_at
    added_by := d.added_by
    locationScore := ls
    freshnessScore := fs
    totalScore := ls + fs
    other := d.other }

/-- The advanced pipeline's final `$project`: drop the three transient
score keys and the embedded user's `password`/`email`. -/
def stripScored (d : ScoredDoc) : OutDoc :=
  { category := d.category
    location := d.location
    adopted := d.adopted
    created_at := d.created_at
    added_by := d.added_by.map stripUser
    locationScore := none
    freshnessScore := none
    totalScore := none
    other := d.other }

/-- Sort-key order of `$sort { totalScore: -1, created_at: -1 }`: `a` may
be placed before `b` iff `a` has the larger total score, or equal scores
and `a` is at least as recent.  MongoDB guarantees no stable order among
ties, so `$sort` is modelled as any sort realising this order (insertion
sort below). -/
def scoredBefore (a b : ScoredDoc) : Prop :=
  b.totalScore < a.totalScore
    ∨ (a.totalScore = b.totalScore ∧ b.created_at ≤ a.created_at)

instance : DecidableRel scoredBefore := fun a b => by
  unfold scoredBefore; infer_instance

instance : IsTotal ScoredDoc scoredBefore := by
  constructor
  intro a b
  unfold scoredBefore
  rcases lt_trichotomy a.totalScore b.totalScore with h | h | h
  · exact Or.inr (Or.inl h)
  · rcases le_total a.created_at b.created_at with hc | hc
    · exact Or.inr (Or.inr ⟨h.symm, hc⟩)
    · exact Or.inl (Or.inr ⟨h, hc⟩)
  · exact Or.inl (Or.inl h)

instance : IsTrans ScoredDoc scoredBefore := by
  constructor
  intro a b c hab hbc
  unfold scoredBefore at *
  rcases hab with h1 | ⟨h1, h1c⟩ <;> rcases hbc with h2 | ⟨h2, h2c⟩
  · exact Or.inl (h2.trans h1)
  · exact Or.inl (h2 ▸ h1)
  · exact Or.inl (h1 ▸ h2)
  · exact Or.inr ⟨h1.trans h2, h2c.trans h1c⟩

/-- Sort-key order of `$sort { created_at: -1 }`: newest first. -/
def createdBefore (a b : OutDoc) : Prop :=
  b.created_at ≤ a.created_at

instance : DecidableRel createdBefore := fun a b => by
  unfold createdBefore; infer_instance

instance : IsTotal OutDoc createdBefore :=
  ⟨fun a b => (le_total b.created_at a.created_at).imp id id⟩

instance : IsTrans OutDoc createdBefore :=
  ⟨fun _ _ _ hab hbc => le_trans hbc hab⟩

/-- The basic handler `getPetRecommendations`: `$match`, `$lookup`,
`$unwind`, `$project` (strip credentials), `$sort { created_at: -1 }`,
`$limit`. -/
def getPetRecommendations (pets : List PetDoc) (users : List UserDoc)
    (cats : Categories) (district : String) (lim : Nat) : List OutDoc :=
  ((List.insertionSort createdBefore
      (((pets.filter (basicMatch cats district)).map (joinUsers users)).map
        basicProject)).take lim)

/-- The advanced handler `getAdvancedPetRecommendations`: `$match`,
`$lookup`, `$unwind`, `$addFields` (scores), `$addFields` (total),
`$sort { totalScore: -1, created_at: -1 }`, `$limit`, `$project` (strip
scores and credentials). -/
def getAdvancedPetRecommendations (pets : List PetDoc) (users : List UserDoc)
    (cats : Categories) (district : String) (now : Int) (lim : Nat) :
    List OutDoc :=
  (((List.insertionSort scoredBefore
        (((pets.filter (advMatch cats district)).map (joinUsers users)).map
          (scoreDoc district now))).take lim).map stripScored)

/-! ## Helper lemmas for the paginator -/

theorem effCursorOf_nonneg {α : Type} (coll : List α) (filter : α → Bool)
    (limitQ cursorQ : Option Int) (hc : 0 ≤ parsedCursor cursorQ) :
    0 ≤ effCursorOf coll filter limitQ cursorQ := by
  unfold effCursorOf adjustedCursor
  split <;> omega

theorem effCursorOf_le_total {α : Type} (coll : List α) (filter : α → Bool)
    (limitQ cursorQ : Option Int) (hp : 0 ≤ effectivePageSize limitQ) :
    effCursorOf coll filter limitQ cursorQ ≤ (countDocuments coll filter : Int) := by
  unfold effCursorOf adjustedCursor
  split <;> omega

theorem effCursorOf_lt_total {α : Type} (coll : List α) (filter : α → Bool)
    (limitQ cursorQ : Option Int) (htotal : 1 ≤ countDocuments coll filter)
    (hp : 1 ≤ effectivePageSize limitQ) :
    effCursorOf coll filter limitQ cursorQ < (countDocuments coll filter : Int) := by
  unfold effCursorOf adjustedCursor
  split <;> omega

theorem paginateCollection_eq_ok {α : Type} (coll : List α) (filter : α → Bool)
    (limitQ cursorQ : Option Int) (h : 0 ≤ effCursorOf coll filter limitQ cursorQ) :
    paginateCollection coll filter limitQ cursorQ = Except.ok
      { items := ((coll.filter filter).drop
            (effCursorOf coll filter limitQ cursorQ).toNat).take
            (effectivePageSize limitQ).natAbs
        nextId :=
          if effCursorOf coll filter limitQ cursorQ + effectivePageSize limitQ <
              (countDocuments coll filter : Int)
          then some (effCursorOf coll filter limitQ cursorQ + effectivePageSize limitQ)
          else none
        previousId :=
          if effCursorOf coll filter limitQ cursorQ - effectivePageSize limitQ ≥ 0
          then some (effCursorOf coll filter limitQ cursorQ - effectivePageSize limitQ)
          else none
        total := countDocuments coll filter } := by
  simp only [paginateCollection, findSkipLimit]
  rw [if_neg (not_lt.mpr h)]

theorem paginateCollection_eq_error {α : Type} (coll : List α) (filter : α → Bool)
    (limitQ cursorQ : Option Int) (h : effCursorOf coll filter limitQ cursorQ < 0) :
    paginateCollection coll filter limitQ cursorQ =
      Except.error "skip must be non-negative" := by
  simp only [paginateCollection, findSkipLimit]
  rw [if_pos h]

/-! ## Pagination claims -/

/-- C1 (counterexample): the invariant `0 <= effectiveCursor <= total` fails
as stated.  With one matching document (`total = 1`) and a requested cursor
parsing to `-1`, line 11 keeps the negative cursor unchanged (`-1 < 1`), so
the effective cursor is `-1 < 0`. -/
theorem C1_counterexample :
    ¬ (0 ≤ effCursorOf [0] (fun _ => true) none (some (-1)) ∧
        effCursorOf [0] (fun _ => true) none (some (-1)) ≤
          (countDocuments [0] (fun _ => true) : Int)) := by
  decide

/-- C1 (amended): for every collection, filter, requested limit and
requested cursor, provided the parsed cursor is nonnegative and the
effective page size is nonnegative (i.e. the requested limit is not
negative), the effective cursor computed by `paginateCollection` satisfies
`0 <= effectiveCursor <= total`, where `total` is the filtered document
count. -/
theorem C1_effectiveCursor_bounds {α : Type} (coll : List α) (filter : α → Bool)
    (limitQ cursorQ : Option Int)
    (hc : 0 ≤ parsedCursor cursorQ) (hp : 0 ≤ effectivePageSize limitQ) :
    0 ≤ effCursorOf coll filter limitQ cursorQ ∧
      effCursorOf coll filter limitQ cursorQ ≤ (countDocuments coll filter : Int) :=
  ⟨effCursorOf_nonneg coll filter limitQ cursorQ hc,
   effCursorOf_le_total coll filter limitQ cursorQ hp⟩

/-- Witness for C1 (amended) at `total = 1`, limit `6`, cursor `20`. -/
theorem C1_witness :
    0 ≤ effCursorOf [0] (fun _ => true) (some 6) (some 20) ∧
      effCursorOf [0] (fun _ => true) (some 6) (some 20) ≤
        (countDocuments [0] (fun _ => true) : Int) :=
  C1_effectiveCursor_bounds [0] (fun _ => true) (some 6) (some 20)
    (by decide) (by decide)

/-- C2: for every requested cursor and limit, if the parsed cursor is at
least the filtered total then the effective cursor is
`max(total - pageSize, 0)`; if it is below the total it is used
unmodified. -/
theorem C2_cursor_clamping {α : Type} (coll : List α) (filter : α → Bool)
    (limitQ cursorQ : Option Int) :
    (parsedCursor cursorQ ≥ (countDocuments coll filter : Int) →
      effCursorOf coll filter limitQ cursorQ =
        max ((countDocuments coll filter : Int) - effectivePageSize limitQ) 0) ∧
    (parsedCursor cursorQ < (countDocuments coll filter : Int) →
      effCursorOf coll filter limitQ cursorQ = parsedCursor cursorQ) := by
  unfold effCursorOf adjustedCursor
  constructor
  · intro h
    rw [if_pos h]
  · intro h
    rw [if_neg (not_le.mpr h)]

/-- Witness for C2: clamping at `total = 1, limit = 6, cursor = 20` and
pass-through at `total = 2, limit = 6, cursor = 1`. -/
theorem C2_witness :
    effCursorOf [0] (fun _ => true) (some 6) (some 20) =
      max ((countDocuments [0] (fun _ => true) : Int) - effectivePageSize (some 6)) 0 ∧
    effCursorOf [0, 1] (fun _ => true) (some 6) (some 1) = parsedCursor (some 1) :=
  ⟨(C2_cursor_clamping [0] (fun _ => true) (some 6) (some 20)).1 (by decide),
   (C2_cursor_clamping [0, 1] (fun _ => true) (some 6) (some 1)).2 (by decide)⟩

/-- C3 (counterexample): the page-size formula fails as stated for every
limit and cursor.  With three matching documents, cursor `0` and a limit
parsing to `-2` (kept by `parseInt(..) || 6` since `-2` is truthy), the
effective cursor `0` is below the total `3`, the returned page has two
items, but `min(limit, total - effectiveCursor) = -2` — no length can
equal it. -/
theorem C3_counterexample :
    paginateCollection [0, 1, 2] (fun _ => true) (some (-2)) (some 0) =
      Except.ok (Page.mk [0, 1] (some (-2)) (some 2) 3) ∧
    effCursorOf [0, 1, 2] (fun _ => true) (some (-2)) (some 0) <
      (countDocuments [0, 1, 2] (fun _ => true) : Int) ∧
    (2 : Int) ≠
      min (effectivePageSize (some (-2)))
        ((countDocuments [0, 1, 2] (fun _ => true) : Int) -
          effCursorOf [0, 1, 2] (fun _ => true) (some (-2)) (some 0)) :=
  ⟨rfl, by decide, by decide⟩

/-- C3 (amended): for every collection, filter, limit and cursor whose
parsed cursor is nonnegative and whose effective page size is nonnegative,
the page returned by `paginateCollection` has
`items.length = min(pageSize, total - effectiveCursor)` when
`effectiveCursor < total`, and `items.length = 0` otherwise. -/
theorem C3_items_length {α : Type} (coll : List α) (filter : α → Bool)
    (limitQ cursorQ : Option Int)
    (hc : 0 ≤ parsedCursor cursorQ) (hp : 0 ≤ effectivePageSize limitQ) :
    ∃ p : Page α, paginateCollection coll filter limitQ cursorQ = Except.ok p ∧
      (p.items.length : Int) =
        (if effCursorOf coll filter limitQ cursorQ < (countDocuments coll filter : Int)
         then min (effectivePageSize limitQ)
           ((countDocuments coll filter : Int) - effCursorOf coll filter limitQ cursorQ)
         else 0) := by
  have h0 := effCursorOf_nonneg coll filter limitQ cursorQ hc
  have hle := effCursorOf_le_total coll filter limitQ cursorQ hp
  refine ⟨_, paginateCollection_eq_ok coll filter limitQ cursorQ h0, ?_⟩
  simp only [List.length_take, List.length_drop]
  have hcount : countDocuments coll filter = (coll.filter filter).length := rfl
  rw [← hcount]
  split <;> omega

/-- Witness for C3 (amended) at `total = 3, limit = 2, cursor = 1`. -/
theorem C3_witness :
    ∃ p : Page Nat,
      paginateCollection [0, 1, 2] (fun _ => true) (some 2) (some 1) = Except.ok p ∧
      (p.items.length : Int) =
        (if effCursorOf [0, 1, 2] (fun _ => true) (some 2) (some 1) <
            (countDocuments [0, 1, 2] (fun _ => true) : Int)
         then min (effectivePageSize (some 2))
           ((countDocuments [0, 1, 2] (fun _ => true) : Int) -
             effCursorOf [0, 1, 2] (fun _ => true) (some 2) (some 1))
         else 0) :=
  C3_items_length [0, 1, 2] (fun _ => true) (some 2) (some 1) (by decide) (by decide)

/-- C4: any page returned by `paginateCollection` has
`nextId = effectiveCursor + pageSize` exactly when that value is below the
total (otherwise absent), and `previousId = effectiveCursor - pageSize`
exactly when that value is nonnegative (otherwise absent). -/
theorem C4_nextId_previousId {α : Type} (coll : List α) (filter : α → Bool)
    (limitQ cursorQ : Option Int) (p : Page α)
    (h : paginateCollection coll filter limitQ cursorQ = Except.ok p) :
    p.nextId =
      (if effCursorOf coll filter limitQ cursorQ + effectivePageSize limitQ <
          (countDocuments coll filter : Int)
       then some (effCursorOf coll filter limitQ cursorQ + effectivePageSize limitQ)
       else none) ∧
    p.previousId =
      (if effCursorOf coll filter limitQ cursorQ - effectivePageSize limitQ ≥ 0
       then some (effCursorOf coll filter limitQ cursorQ - effectivePageSize limitQ)
       else none) := by
  rcases lt_or_le (effCursorOf coll filter limitQ cursorQ) 0 with hneg | hpos
  · rw [paginateCollection_eq_error coll filter limitQ cursorQ hneg] at h
    cases h
  · rw [paginateCollection_eq_ok coll filter limitQ cursorQ hpos] at h
    cases h
    exact ⟨rfl, rfl⟩

/-- Witness for C4 at `total = 10, limit = 6, cursor = 0`
(`nextId = 6`, `previousId` absent). -/
theorem C4_witness :
    (Page.mk [0, 1, 2, 3, 4, 5] (some 6) none 10 : Page Nat).nextId =
      (if effCursorOf (List.range 10) (fun _ => true) (some 6) (some 0) +
          effectivePageSize (some 6) <
          (countDocuments (List.range 10) (fun _ => true) : Int)
       then some (effCursorOf (List.range 10) (fun _ => true) (some 6) (some 0) +
         effectivePageSize (some 6))
       else none) ∧
    (Page.mk [0, 1, 2, 3, 4, 5] (some 6) none 10 : Page Nat).previousId =
      (if effCursorOf (List.range 10) (fun _ => true) (some 6) (some 0) -
          effectivePageSize (some 6) ≥ 0
       then some (effCursorOf (List.range 10) (fun _ => true) (some 6) (some 0) -
         effectivePageSize (some 6))
       else none) :=
  C4_nextId_previousId (List.range 10) (fun _ => true) (some 6) (some 0)
    (Page.mk [0, 1, 2, 3, 4, 5] (some 6) none 10) (by rfl)

/-- C8: `paginateCollection` never fails on malformed paging inputs: a
limit that does not parse (`none`) or parses to the falsy `0` behaves
exactly as the default `6`, a cursor that does not parse behaves exactly as
the default `0`, and with both defaults in force the call succeeds — the
only failure the helper can propagate is the store's. -/
theorem C8_default_substitution {α : Type} (coll : List α) (filter : α → Bool)
    (limitQ cursorQ : Option Int) :
    paginateCollection coll filter none cursorQ =
      paginateCollection coll filter (some 6) cursorQ ∧
    paginateCollection coll filter (some 0) cursorQ =
      paginateCollection coll filter (some 6) cursorQ ∧
    paginateCollection coll filter limitQ none =
      paginateCollection coll filter limitQ (some 0) ∧
    ∃ p : Page α, paginateCollection coll filter none none = Except.ok p := by
  refine ⟨rfl, rfl, rfl, ?_⟩
  exact ⟨_, paginateCollection_eq_ok coll filter none none
    (effCursorOf_nonneg coll filter none none (by decide))⟩

/-- C9: whenever at least one document matches the filter, the parsed
cursor is nonnegative and the effective page size is at least one, the
returned page is non-empty — a cursor at or beyond the total yields the
last page, never an empty one. -/
theorem C9_nonempty_page {α : Type} (coll : List α) (filter : α → Bool)
    (limitQ cursorQ : Option Int)
    (htotal : 1 ≤ countDocuments coll filter)
    (hc : 0 ≤ parsedCursor cursorQ) (hp : 1 ≤ effectivePageSize limitQ) :
    ∃ p : Page α, paginateCollection coll filter limitQ cursorQ = Except.ok p ∧
      p.items ≠ [] := by
  have h0 := effCursorOf_nonneg coll filter limitQ cursorQ hc
  have hlt := effCursorOf_lt_total coll filter limitQ cursorQ htotal hp
  refine ⟨_, paginateCollection_eq_ok coll filter limitQ cursorQ h0, ?_⟩
  show ((coll.filter filter).drop
      (effCursorOf coll filter limitQ cursorQ).toNat).take
      (effectivePageSize limitQ).natAbs ≠ []
  intro hnil
  have hlen := congrArg List.length hnil
  simp only [List.length_take, List.length_drop, List.length_nil] at hlen
  have hcount : countDocuments coll filter = (coll.filter filter).length := rfl
  rw [← hcount] at hlen
  omega

/-- Witness for C9 at `total = 1, limit = 6, cursor = 20` (clamped back to
the only page). -/
theorem C9_witness :
    ∃ p : Page Nat,
      paginateCollection [0] (fun _ => true) (some 6) (some 20) = Except.ok p ∧
      p.items ≠ [] :=
  C9_nonempty_page [0] (fun _ => true) (some 6) (some 20)
    (by decide) (by decide) (by decide)

/-! ## Recommendation claims -/

/-- Sample user for concrete witnesses: credentials present before
stripping. -/
def sampleUser : UserDoc :=
  { uid := 1, password := some "hunter2", email := some "ann@example.com",
    other := "Ann" }

/-- Sample pet listed by `sampleUser` in Dhaka. -/
def samplePet : PetDoc :=
  { category := "dog", location := some "Dhaka", adopted := false,
    created_at := 0, added_by := some 1, other := "Rex" }

/-- Sample pet that never recorded a location. -/
def petNoLoc : PetDoc :=
  { category := "cat", location := none, adopted := false, created_at := 5,
    added_by := none, other := "Mia" }

/-- Sample pet listed 15 days before the sample aggregation time. -/
def oldPet : PetDoc :=
  { category := "dog", location := none, adopted := false, created_at := 0,
    added_by := none, other := "Old" }

/-- The entry both recommendation modes return for `samplePet`, with the
lister's credentials stripped and no score fields. -/
def sampleOut : OutDoc :=
  basicProject (joinUsers [sampleUser] samplePet)

/-- C5: in the advanced mode every candidate is scored with
`locationScore = 10` on a case-insensitive location match and `5`
otherwise, `freshnessScore = 10 - (now - created_at)/86400000` with no
lower clamp (it is negative for a listing 15 days old), and the output is
a permutation of the scored candidates ordered by `totalScore` descending
with `created_at` descending as tie-break, truncated to the requested
limit (scores stripped). -/
theorem C5_advanced_scoring_order (pets : List PetDoc) (users : List UserDoc)
    (cats : Categories) (district : String) (now : Int) (lim : Nat) :
    (∀ j : JoinedDoc,
      (scoreDoc district now j).locationScore =
        (if locMatches district j.location then (10 : ℚ) else 5) ∧
      (scoreDoc district now j).freshnessScore =
        10 - ((now - j.created_at : Int) : ℚ) / 86400000 ∧
      (scoreDoc district now j).totalScore =
        (scoreDoc district now j).locationScore +
          (scoreDoc district now j).freshnessScore) ∧
    (∀ j : JoinedDoc, j.created_at = now - 15 * 86400000 →
      (scoreDoc district now j).freshnessScore < 0) ∧
    ∃ l : List ScoredDoc,
      l.Perm (((pets.filter (advMatch cats district)).map (joinUsers users)).map
        (scoreDoc district now)) ∧
      l.Pairwise scoredBefore ∧
      getAdvancedPetRecommendations pets users cats district now lim =
        (l.take lim).map stripScored := by
  refine ⟨fun j => ⟨rfl, rfl, rfl⟩, ?_, ?_⟩
  · intro j hj
    show (10 : ℚ) - ((now - j.created_at : Int) : ℚ) / 86400000 < 0
    rw [hj]
    push_cast
    ring_nf
    norm_num
  · exact ⟨List.insertionSort scoredBefore _,
      List.perm_insertionSort scoredBefore _,
      List.sorted_insertionSort scoredBefore _, rfl⟩

/-- Witness for C5 (the negative-freshness conjunct carries a hypothesis):
a listing 15 days old scores `freshnessScore = -5 < 0`. -/
theorem C5_witness :
    (scoreDoc "dhaka" (15 * 86400000) (joinUsers [] oldPet)).freshnessScore < 0 :=
  ((C5_advanced_scoring_order [] [] (Categories.arr []) "dhaka"
      (15 * 86400000) 12).2.1 (joinUsers [] oldPet) (by decide))

/-- C6: a candidate whose `location` field is absent still passes the
advanced `$match` (category and adoption state permitting) and receives
`locationScore = 5` — it is neither excluded nor an error. -/
theorem C6_absent_location_included (pets : List PetDoc) (users : List UserDoc)
    (cats : Categories) (district : String) (now : Int) (d : PetDoc)
    (hmem : d ∈ pets) (hloc : d.location = none) (hadopt : d.adopted = false)
    (hcat : d.category ∈ categoryArray cats) :
    d ∈ pets.filter (advMatch cats district) ∧
    (scoreDoc district now (joinUsers users d)).locationScore = 5 := by
  constructor
  · rw [List.mem_filter]
    refine ⟨hmem, ?_⟩
    unfold advMatch
    simp [hloc, hadopt, locMatches, hcat]
  · unfold scoreDoc joinUsers
    simp [hloc, locMatches]

/-- Witness for C6: the location-less `petNoLoc` is kept and scored 5. -/
theorem C6_witness :
    petNoLoc ∈ [samplePet, petNoLoc].filter
      (advMatch (Categories.arr ["dog", "cat"]) "dha") ∧
    (scoreDoc "dha" 0 (joinUsers [sampleUser] petNoLoc)).locationScore = 5 :=
  C6_absent_location_included [samplePet, petNoLoc] [sampleUser]
    (Categories.arr ["dog", "cat"]) "dha" 0 petNoLoc
    (by decide) (by decide) (by decide) (by decide)

/-- C7: every entry either recommendation mode returns has its embedded
lister reference free of `password` and `email` keys, and in advanced mode
the transient `locationScore`, `freshnessScore` and `totalScore` fields are
absent as well. -/
theorem C7_credentials_stripped (pets : List PetDoc) (users : List UserDoc)
    (cats : Categories) (district : String) (now : Int) (lim : Nat)
    (e : OutDoc) :
    (e ∈ getPetRecommendations pets users cats district lim →
      ∀ u : UserDoc, e.added_by = some u → u.password = none ∧ u.email = none) ∧
    (e ∈ getAdvancedPetRecommendations pets users cats district now lim →
      (∀ u : UserDoc, e.added_by = some u →
        u.password = none ∧ u.email = none) ∧
      e.locationScore = none ∧ e.freshnessScore = none ∧ e.totalScore = none) := by
  constructor
  · intro he u hu
    have h1 := List.mem_of_mem_take he
    have h2 := (List.perm_insertionSort createdBefore _).subset h1
    rcases List.mem_map.mp h2 with ⟨j, _, rfl⟩
    rcases Option.map_eq_some'.mp hu with ⟨v, _, rfl⟩
    exact ⟨rfl, rfl⟩
  · intro he
    rcases List.mem_map.mp he with ⟨s, _, rfl⟩
    refine ⟨?_, rfl, rfl, rfl⟩
    intro u hu
    rcases Option.map_eq_some'.mp hu with ⟨v, _, rfl⟩
    exact ⟨rfl, rfl⟩

/-- Witness for C7: the entry returned for `samplePet` (member of both
modes' outputs on concrete data) carries a stripped lister and no score
fields. -/
theorem C7_witness :
    ((∀ u : UserDoc, sampleOut.added_by = some u →
        u.password = none ∧ u.email = none) ∧
      sampleOut.locationScore = none ∧ sampleOut.freshnessScore = none ∧
      sampleOut.totalScore = none) ∧
    (∀ u : UserDoc, sampleOut.added_by = some u →
      u.password = none ∧ u.email = none) :=
  ⟨(C7_credentials_stripped [samplePet] [sampleUser] (Categories.single "dog")
      "dha" 0 12 sampleOut).2 (by decide),
   (C7_credentials_stripped [samplePet] [sampleUser] (Categories.single "dog")
      "dha" 0 12 sampleOut).1 (by decide)⟩

/-- C10: for a single category string, both recommendation modes behave
identically whether the parameter arrives as the lone string or as the
singleton array — the non-array value is wrapped before the `$in` filter
is built. -/
theorem C10_single_category_wrap (c : String) (pets : List PetDoc)
    (users : List UserDoc) (district : String) (now : Int) (lim : Nat) :
    getPetRecommendations pets users (Categories.single c) district lim =
      getPetRecommendations pets users (Categories.arr [c]) district lim ∧
    getAdvancedPetRecommendations pets users (Categories.single c) district
        now lim =
      getAdvancedPetRecommendations pets users (Categories.arr [c]) district
        now lim :=
  ⟨rfl, rfl⟩

end AdoptiPet
